import Mathlib

/-!
Shallow embedding of `src/Plot3D/objects/base_surface_contour.py`
(`BaseCrossSection`): a renderable object that displays a 3D scalar field
as a textured cross-section mesh.

Modelling choices:
* numpy arrays become `NDArray`: a shape, a dtype tag and a flat (row-major)
  list of sample values.  Sample values are rationals; the float32 rounding
  performed by numpy is abstracted away (the claims under study are
  structural, not about rounding).
* OpenGL calls become a command trace appended to a `GLState`; handle
  allocation (`glGen*`) is a fresh-id counter.
* Python exceptions become `Except PyErr`.
* the abstract `base_model()` (overridden in subclasses) becomes an explicit
  parameter of the constructor: a list of (u, v, w) texture coordinates.
* `BaseObject` (the superclass, not under `src/`) contributes only the
  `initialized` flag and `class_initialize`; those two are modelled from the
  spec, as marked below.
-/

namespace Plot3D

/-- numpy dtype tags; the code only distinguishes float32 from the rest. -/
inductive DType where
  | float32
  | other
  deriving DecidableEq, Repr

/-- A numpy ndarray: shape, dtype, flat row-major data. -/
structure NDArray where
  shape : List Nat
  dtype : DType
  data : List ℚ
  deriving DecidableEq, Repr

/-- `np.array(a, dtype=np.float32)`: coerce the dtype (values abstracted as
exact rationals, so the cast leaves them unchanged). -/
def NDArray.toFloat32 (a : NDArray) : NDArray :=
  { a with dtype := DType.float32 }

/-- `a.astype(d)`: cast to the given dtype. -/
def NDArray.astype (a : NDArray) (d : DType) : NDArray :=
  { a with dtype := d }

/-- `np.min` over the flat data (defined as 0 on an empty array, which numpy
would reject; theorems that need it assume nonempty data). -/
def npMin : List ℚ → ℚ
  | [] => 0
  | x :: xs => xs.foldl min x

/-- `np.max` over the flat data. -/
def npMax : List ℚ → ℚ
  | [] => 0
  | x :: xs => xs.foldl max x

/-- Python `max(array.shape)`. -/
def maxDim (a : NDArray) : Nat :=
  a.shape.foldl max 0

/-- Python exceptions raised by this module.  The code raises `ValueError`
in both places; the spec names them ShapeError and MismatchError, and we keep
the distinguishing payloads (the offending dimensionality, resp. the two
shapes) instead of the formatted message strings. -/
inductive PyErr where
  | shapeError (ndim : Nat)
  | mismatchError (expected got : List Nat)
  deriving DecidableEq, Repr

/-- 3D-texture wrap axes (GL_TEXTURE_WRAP_S / _T / _R). -/
inductive WrapAxis where
  | s
  | t
  | r
  deriving DecidableEq, Repr

/-- Texture filter directions (GL_TEXTURE_MAG_FILTER / GL_TEXTURE_MIN_FILTER). -/
inductive FilterDir where
  | magFilter
  | minFilter
  deriving DecidableEq, Repr

/-- The OpenGL calls issued by the class, recorded as a trace. -/
inductive GLCmd where
  | genTextures (id : ℤ)
  | bindTexture3D (tex : ℤ)
  | texWrapClampToEdge (axis : WrapAxis)
  | texFilterNearest (dir : FilterDir)
  | texImage3D (width height depth : Nat) (data : List ℚ)
  | genVertexArrays (id : ℤ)
  | genBuffers (id : ℤ)
  | deleteVertexArrays (id : ℤ)
  | deleteBuffers (id : ℤ)
  | bindBuffer (id : ℤ)
  | bindVertexArray (id : ℤ)
  | bufferData (data : List ℚ)
  | vertexAttribPointer (location : Nat)
  | enableVertexAttribArray (location : Nat)
  | getUniformLocation (uniform : String)
  | uniform1i (value : ℤ)
  | compileAndLinkProgram
  deriving DecidableEq, Repr

/-- The OpenGL context: a fresh-handle counter and the call trace. -/
structure GLState where
  nextId : ℤ
  log : List GLCmd
  deriving DecidableEq, Repr

/-- Append calls to the trace. -/
def GLState.emit (g : GLState) (cs : List GLCmd) : GLState :=
  { g with log := g.log ++ cs }

/-- `glGenTextures(1)`: return a fresh handle. -/
def GLState.genTextures (g : GLState) : ℤ × GLState :=
  (g.nextId, { nextId := g.nextId + 1, log := g.log ++ [GLCmd.genTextures g.nextId] })

/-- `glGenVertexArrays(1)`. -/
def GLState.genVertexArrays (g : GLState) : ℤ × GLState :=
  (g.nextId, { nextId := g.nextId + 1, log := g.log ++ [GLCmd.genVertexArrays g.nextId] })

/-- `glGenBuffers(1)`. -/
def GLState.genBuffers (g : GLState) : ℤ × GLState :=
  (g.nextId, { nextId := g.nextId + 1, log := g.log ++ [GLCmd.genBuffers g.nextId] })

/-- The per-instance state of a `BaseCrossSection`.

`initialized` is the flag owned by the superclass `BaseObject` (not under
`src/`).  Modelled from the spec: the base renderable owns "the notion of
'initialized' state"; `super().__init__()` leaves it unset (false) and
`initialize` sets it via `self._initialized = True`. -/
structure CrossSection where
  array : NDArray
  offset : ℚ × ℚ × ℚ
  x_size : ℚ
  y_size : ℚ
  z_size : ℚ
  vmin : ℚ
  vmax : ℚ
  triangles : List (ℚ × ℚ × ℚ × ℚ × ℚ × ℚ)
  vao : ℤ
  vbo : ℤ
  tex : ℤ
  initialized : Bool
  deriving DecidableEq, Repr

/-- One row of `self.triangles` (`BaseCrossSection.__init__`, lines 58–68):
`positions = uvw - np.array([0.5,0.5,0.5]) + self.offset`, then columns
0–2 are `positions * (x_size, y_size, z_size)` and columns 3–5 are `uvw`. -/
def triangleRow (offset : ℚ × ℚ × ℚ) (xs ys zs : ℚ) (uvw : ℚ × ℚ × ℚ) :
    ℚ × ℚ × ℚ × ℚ × ℚ × ℚ :=
  ((uvw.1 - 1/2 + offset.1) * xs,
   (uvw.2.1 - 1/2 + offset.2.1) * ys,
   (uvw.2.2 - 1/2 + offset.2.2) * zs,
   uvw.1, uvw.2.1, uvw.2.2)

/-- The warning printed when the field exceeds the 256-texel guarantee. -/
def textureSizeWarning : String :=
  "Warning: OpenGL only guarantees up to 256x256x256 3D textures"

/-- `BaseCrossSection.__init__`.

`baseModel` stands for the abstract `self.base_model()` (supplied by a
subclass).  Optional parameters are `Option`, `none` meaning the Python
default `None`.  Returns the constructed instance together with the list of
warnings printed (the constructor touches no GL state, so it takes and
returns no `GLState`). -/
def init (baseModel : List (ℚ × ℚ × ℚ)) (array : NDArray) (offset : ℚ × ℚ × ℚ)
    (x_size y_size z_size : Option ℚ) (vmin vmax : Option ℚ) :
    Except PyErr (CrossSection × List String) :=
  -- array = np.array(array, dtype=np.float32)
  let array := array.toFloat32
  -- if len(array.shape) != 3: raise ValueError(...)
  if array.shape.length ≠ 3 then
    Except.error (PyErr.shapeError array.shape.length)
  else
    -- if max(array.shape) > 256: print warning
    let warnings := if maxDim array > 256 then [textureSizeWarning] else []
    let xs : ℚ := match x_size with
      | none => (array.shape.getD 0 0 : ℚ)
      | some v => v
    let ys : ℚ := match y_size with
      | none => (array.shape.getD 1 0 : ℚ)
      | some v => v
    let zs : ℚ := match z_size with
      | none => (array.shape.getD 2 0 : ℚ)
      | some v => v
    let vn : ℚ := match vmin with
      | none => npMin array.data
      | some v => v
    let vx : ℚ := match vmax with
      | none => npMax array.data
      | some v => v
    Except.ok
      ({ array := array
         offset := offset
         x_size := xs, y_size := ys, z_size := zs
         vmin := vn, vmax := vx
         triangles := baseModel.map (triangleRow offset xs ys zs)
         vao := -1, vbo := -1, tex := -1
         initialized := false }, warnings)

/-- `BaseCrossSection.createTexture` (lines 199–209): allocate the texture
handle if unset, bind it, set clamp-to-edge wrapping on the S and T axes and
nearest-neighbor filtering in both directions. -/
def createTexture (s : CrossSection) (g : GLState) : CrossSection × GLState :=
  let (s, g) :=
    if s.tex = -1 then
      let (id, g) := g.genTextures
      ({ s with tex := id }, g)
    else (s, g)
  (s, g.emit [GLCmd.bindTexture3D s.tex,
              GLCmd.texWrapClampToEdge WrapAxis.s,
              GLCmd.texWrapClampToEdge WrapAxis.t,
              GLCmd.texFilterNearest FilterDir.magFilter,
              GLCmd.texFilterNearest FilterDir.minFilter])

/-- `data = ((np.array(array) - self.vmin)/(self.vmax - self.vmin)).flatten()`
(line 220): the linear remap applied before upload — no clamping. -/
def setTextureData (s : CrossSection) (array : NDArray) : List ℚ :=
  array.data.map (fun x => (x - s.vmin) / (s.vmax - s.vmin))

/-- `BaseCrossSection.setTexture` (lines 211–223): create the texture if
unset, remap the data by the current vmin/vmax window and upload it with
`glTexImage3D`.  The code unpacks `height, width, depth = array.shape` and
passes `(width, height, depth)` to `glTexImage3D`. -/
def setTexture (s : CrossSection) (array : NDArray) (g : GLState) :
    CrossSection × GLState :=
  let (s, g) := if s.tex = -1 then createTexture s g else (s, g)
  let data := setTextureData s array
  let height := array.shape.getD 0 0
  let width := array.shape.getD 1 0
  let depth := array.shape.getD 2 0
  (s, g.emit [GLCmd.bindTexture3D s.tex,
              GLCmd.texImage3D width height depth data])

/-- `BaseCrossSection.array` setter (lines 104–117): cast the new array to
the stored dtype, reject a shape mismatch, store it, and re-upload the
texture when initialized. -/
def setArray (s : CrossSection) (newArray : NDArray) (g : GLState) :
    Except PyErr (CrossSection × GLState) :=
  -- new_array = np.array(new_array).astype(self.__array.dtype)
  let newArray := newArray.astype s.array.dtype
  if newArray.shape ≠ s.array.shape then
    Except.error (PyErr.mismatchError s.array.shape newArray.shape)
  else
    let s' := { s with array := newArray }
    if s'.initialized then
      Except.ok (setTexture s' s'.array g)
    else
      Except.ok (s', g)

/-- Flatten `self.triangles` to the buffer layout (6 floats per vertex). -/
def flattenTriangles (ts : List (ℚ × ℚ × ℚ × ℚ × ℚ × ℚ)) : List ℚ :=
  ts.flatMap (fun t => [t.1, t.2.1, t.2.2.1, t.2.2.2.1, t.2.2.2.2.1, t.2.2.2.2.2])

/-- `BaseCrossSection.setBuffers` (lines 191–197). -/
def setBuffers (s : CrossSection) (g : GLState) : GLState :=
  g.emit [GLCmd.bindBuffer s.vbo, GLCmd.bufferData (flattenTriangles s.triangles)]

/-- `BaseCrossSection.createBuffers` (lines 247–277): delete any existing
vertex array/buffer, allocate fresh ones, upload a blank mesh and configure
the two vertex attributes. -/
def createBuffers (s : CrossSection) (g : GLState) : CrossSection × GLState :=
  let (s, g) :=
    if s.vao ≠ -1 then
      ({ s with vao := -1 }, g.emit [GLCmd.deleteVertexArrays s.vao])
    else (s, g)
  let (s, g) :=
    if s.vbo ≠ -1 then
      ({ s with vbo := -1 }, g.emit [GLCmd.deleteBuffers s.vbo])
    else (s, g)
  let (vao, g) := g.genVertexArrays
  let (vbo, g) := g.genBuffers
  let s := { s with vao := vao, vbo := vbo }
  let g := g.emit [GLCmd.bindBuffer s.vbo, GLCmd.bufferData [],
                   GLCmd.bindVertexArray s.vao,
                   GLCmd.vertexAttribPointer 0, GLCmd.enableVertexAttribArray 0,
                   GLCmd.vertexAttribPointer 1, GLCmd.enableVertexAttribArray 1]
  (s, g)

/-- `BaseObject.class_initialize`.  Modelled from the spec: the superclass
`BaseObject` (not under `src/`) "compiles/links the shared program exactly
once", guarded by a class-level initialized flag.  `classInit` is that flag. -/
def class_initialize (classInit : Bool) (g : GLState) : Bool × GLState :=
  if classInit then (classInit, g)
  else (true, g.emit [GLCmd.compileAndLinkProgram])

/-- `BaseCrossSection.initialize` (lines 225–245): return at once when
already initialized; otherwise run class initialization, create and fill the
buffers, upload the texture, bind the two sampler uniforms and set the
initialized flag.  (Named `initializeObject` because `initialize` is a Lean
keyword.) -/
def initializeObject (s : CrossSection) (classInit : Bool) (g : GLState) :
    CrossSection × Bool × GLState :=
  if s.initialized then (s, classInit, g)
  else
    let (classInit, g) := class_initialize classInit g
    let (s, g) := createBuffers s g
    let g := setBuffers s g
    let (s, g) := setTexture s s.array g
    let g := g.emit [GLCmd.getUniformLocation ("cmap"),
                     GLCmd.getUniformLocation ("field"),
                     GLCmd.uniform1i 0, GLCmd.uniform1i 1]
    ({ s with initialized := true }, classInit, g)

/-! Concrete states and arrays used to evaluate the definitions on small
inputs (witnesses of the theorems below). -/

/-- A 4×4×4 all-zero field. -/
def c1Array : NDArray := ⟨[4, 4, 4], DType.float32, List.replicate 64 0⟩

/-- A freshly constructed (texture not yet allocated) instance over a
2×3×4 zero field. -/
def c2State : CrossSection :=
  { array := ⟨[2, 3, 4], DType.float32, List.replicate 24 0⟩
    offset := (0, 0, 0), x_size := 2, y_size := 3, z_size := 4
    vmin := 0, vmax := 1, triangles := [], vao := -1, vbo := -1, tex := -1
    initialized := false }

/-- An already-initialized instance over a 1×1×1 field, with GPU handles
1 (vao), 2 (vbo) and 3 (tex). -/
def sampleInitState : CrossSection :=
  { array := ⟨[1, 1, 1], DType.float32, [5]⟩
    offset := (0, 0, 0), x_size := 1, y_size := 1, z_size := 1
    vmin := 0, vmax := 1, triangles := [], vao := 1, vbo := 2, tex := 3
    initialized := true }

/-- `sampleInitState` after a successful same-shape field replacement. -/
def c5NewState : CrossSection :=
  { sampleInitState with array := ⟨[1, 1, 1], DType.float32, [7]⟩ }

/-- A 2×3×4 field with data 0, 1, …, 23. -/
def c7Array : NDArray :=
  ⟨[2, 3, 4], DType.float32, (List.range 24).map (fun n => (n : ℚ))⟩

/-- An initialized instance whose color window is [10, 20]. -/
def c8State : CrossSection := { sampleInitState with vmin := 10, vmax := 20 }

/-- A field whose values span exactly [10, 20]. -/
def c8Array : NDArray := ⟨[1, 1, 3], DType.float32, [10, 15, 20]⟩

/-- A field whose largest dimension (300) exceeds the 256-texel guarantee. -/
def c9Array : NDArray := ⟨[300, 1, 1], DType.float32, List.replicate 300 0⟩

/-- A 1×1×1 input array of non-float32 dtype. -/
def c10Array : NDArray := ⟨[1, 1, 1], DType.other, [5]⟩

/-- The instance `init` constructs from `c10Array` with every optional
argument defaulted. -/
def c10State : CrossSection :=
  { array := ⟨[1, 1, 1], DType.float32, [5]⟩
    offset := (0, 0, 0), x_size := 1, y_size := 1, z_size := 1
    vmin := 5, vmax := 5, triangles := [], vao := -1, vbo := -1, tex := -1
    initialized := false }

/-! Helper lemmas. -/

/-- Folding `min` over a list of copies of `k`, starting from `k`, gives `k`. -/
lemma foldl_min_const (k : ℚ) (xs : List ℚ) :
    ∀ acc, acc = k → (∀ x ∈ xs, x = k) → xs.foldl min acc = k := by
  induction xs with
  | nil => intro acc hacc _; simpa using hacc
  | cons x xs ih =>
    intro acc hacc h
    have hx := h x (List.mem_cons_self x xs)
    simp only [List.foldl_cons]
    exact ih (min acc x) (by rw [hacc, hx, min_self])
      (fun y hy => h y (List.mem_cons_of_mem x hy))

/-- Folding `max` over a list of copies of `k`, starting from `k`, gives `k`. -/
lemma foldl_max_const (k : ℚ) (xs : List ℚ) :
    ∀ acc, acc = k → (∀ x ∈ xs, x = k) → xs.foldl max acc = k := by
  induction xs with
  | nil => intro acc hacc _; simpa using hacc
  | cons x xs ih =>
    intro acc hacc h
    have hx := h x (List.mem_cons_self x xs)
    simp only [List.foldl_cons]
    exact ih (max acc x) (by rw [hacc, hx, max_self])
      (fun y hy => h y (List.mem_cons_of_mem x hy))

/-- `np.min` of a nonempty constant list is that constant. -/
lemma npMin_const (k : ℚ) (l : List ℚ) (hne : l ≠ []) (h : ∀ x ∈ l, x = k) :
    npMin l = k := by
  cases l with
  | nil => exact absurd rfl hne
  | cons x xs =>
    exact foldl_min_const k xs x (h x (List.mem_cons_self x xs))
      (fun y hy => h y (List.mem_cons_of_mem x hy))

/-- `np.max` of a nonempty constant list is that constant. -/
lemma npMax_const (k : ℚ) (l : List ℚ) (hne : l ≠ []) (h : ∀ x ∈ l, x = k) :
    npMax l = k := by
  cases l with
  | nil => exact absurd rfl hne
  | cons x xs =>
    exact foldl_max_const k xs x (h x (List.mem_cons_self x xs))
      (fun y hy => h y (List.mem_cons_of_mem x hy))

/-- `setTexture` touches only the `tex` handle of the instance: the array,
mesh, extents, offset, color window, buffer handles and initialized flag all
survive unchanged. -/
lemma setTexture_fields (s : CrossSection) (a : NDArray) (g : GLState) :
    (setTexture s a g).1.array = s.array ∧ (setTexture s a g).1.triangles = s.triangles
    ∧ (setTexture s a g).1.vao = s.vao ∧ (setTexture s a g).1.vbo = s.vbo
    ∧ (setTexture s a g).1.x_size = s.x_size ∧ (setTexture s a g).1.y_size = s.y_size
    ∧ (setTexture s a g).1.z_size = s.z_size ∧ (setTexture s a g).1.offset = s.offset
    ∧ (setTexture s a g).1.vmin = s.vmin ∧ (setTexture s a g).1.vmax = s.vmax
    ∧ (setTexture s a g).1.initialized = s.initialized := by
  by_cases ht : s.tex = -1 <;>
    simp [setTexture, createTexture, ht, GLState.genTextures, GLState.emit]

/-- When the texture handle is already allocated, `setTexture` emits exactly
a bind followed by the `glTexImage3D` upload. -/
lemma setTexture_log_of_ne (s : CrossSection) (a : NDArray) (g : GLState)
    (ht : ¬ s.tex = -1) :
    (setTexture s a g).2 =
      g.emit [GLCmd.bindTexture3D s.tex,
        GLCmd.texImage3D (a.shape.getD 1 0) (a.shape.getD 0 0) (a.shape.getD 2 0)
          (setTextureData s a)] := by
  simp [setTexture, ht]

/-! Claim theorems. -/

/-- C3: constructing from an array whose dimensionality is not exactly 3
raises the shape error immediately.  The constructor (`init`) takes and
returns no GL state at all — it can issue no GPU call — and on this error
path no instance (hence no handle sentinel) is ever produced. -/
theorem c3_shape_error_on_non3d (baseModel : List (ℚ × ℚ × ℚ)) (array : NDArray)
    (offset : ℚ × ℚ × ℚ) (x_size y_size z_size vmin vmax : Option ℚ)
    (h : array.shape.length ≠ 3) :
    init baseModel array offset x_size y_size z_size vmin vmax =
      Except.error (PyErr.shapeError array.shape.length) := by
  simp [init, NDArray.toFloat32, h]

/-- C3 witness: a 2×2 (2D) array is rejected with the shape error. -/
theorem c3_witness :
    init [] ⟨[2, 2], DType.other, [1, 2, 3, 4]⟩ (0, 0, 0) none none none none none =
      Except.error (PyErr.shapeError 2) :=
  c3_shape_error_on_non3d [] ⟨[2, 2], DType.other, [1, 2, 3, 4]⟩ (0, 0, 0)
    none none none none none (by decide)

/-- C6: `initialize()` on an already-initialized instance is a no-op: it
returns at once, changes no attribute (the instance and the class flag are
returned unchanged) and performs no GPU operation (the GL state is returned
unchanged). -/
theorem c6_initialize_idempotent (s : CrossSection) (classInit : Bool)
    (g : GLState) (h : s.initialized = true) :
    initializeObject s classInit g = (s, classInit, g) := by
  simp [initializeObject, h]

/-- C6 witness: a concrete initialized instance is untouched by a second
`initialize()`. -/
theorem c6_witness :
    initializeObject sampleInitState true ⟨10, []⟩ = (sampleInitState, true, ⟨10, []⟩) :=
  c6_initialize_idempotent sampleInitState true ⟨10, []⟩ rfl

/-- C7: with no optional arguments supplied, construction defaults each
extent to the corresponding array dimension and vmin/vmax to the field's
actual minimum/maximum; on a constant field the two bounds coincide. -/
theorem c7_construction_defaults (baseModel : List (ℚ × ℚ × ℚ)) (array : NDArray)
    (offset : ℚ × ℚ × ℚ) (a b c : Nat) (h3 : array.shape = [a, b, c]) :
    (init baseModel array offset none none none none none).map
        (fun p => (p.1.x_size, p.1.y_size, p.1.z_size, p.1.vmin, p.1.vmax)) =
      Except.ok ((a : ℚ), (b : ℚ), (c : ℚ), npMin array.data, npMax array.data)
    ∧ (∀ k : ℚ, array.data ≠ [] → (∀ x ∈ array.data, x = k) →
        npMin array.data = npMax array.data) := by
  constructor
  · simp [init, NDArray.toFloat32, h3, Except.map]
  · intro k hne hk
    rw [npMin_const k array.data hne hk, npMax_const k array.data hne hk]

set_option maxRecDepth 4096 in
/-- C7 witness: for the 2×3×4 field with data 0,…,23 the defaults are
extents (2, 3, 4) and color window (0, 23). -/
theorem c7_witness :
    (init [] c7Array (0, 0, 0) none none none none none).map
        (fun p => (p.1.x_size, p.1.y_size, p.1.z_size, p.1.vmin, p.1.vmax)) =
      Except.ok ((2 : ℚ), (3 : ℚ), (4 : ℚ), (0 : ℚ), (23 : ℚ)) := by
  have h := (c7_construction_defaults [] c7Array (0, 0, 0) 2 3 4 rfl).1
  rw [h]
  simp only [Except.ok.injEq, Prod.mk.injEq]
  exact ⟨by norm_num, by norm_num, by norm_num, by decide, by decide⟩

/-- C9: a valid 3D field whose largest dimension exceeds 256 still
constructs successfully; the advisory warning is printed and no exception
is raised. -/
theorem c9_oversize_warning (baseModel : List (ℚ × ℚ × ℚ)) (array : NDArray)
    (offset : ℚ × ℚ × ℚ) (x_size y_size z_size vmin vmax : Option ℚ)
    (h3 : array.shape.length = 3) (hbig : 256 < maxDim array) :
    (init baseModel array offset x_size y_size z_size vmin vmax).map
        (fun p => p.2) = Except.ok [textureSizeWarning] := by
  simp [init, NDArray.toFloat32, maxDim, h3, Except.map] at hbig ⊢
  simp [hbig]

/-- C9 witness: a 300×1×1 field constructs with exactly the advisory. -/
theorem c9_witness :
    (init [] c9Array (0, 0, 0) (some 1) (some 1) (some 1) (some 0) (some 1)).map
        (fun p => p.2) = Except.ok [textureSizeWarning] :=
  c9_oversize_warning [] c9Array (0, 0, 0) (some 1) (some 1) (some 1) (some 0)
    (some 1) rfl (by decide)

/-- C10: the stored field is always float32 and 3-dimensional — the
constructor coerces any accepted input to float32 and keeps its shape and
values, and the array setter casts every replacement to the stored dtype and
preserves the stored shape. -/
theorem c10_dtype_shape_invariant :
    (∀ baseModel array offset x_size y_size z_size vmin vmax s w,
        init baseModel array offset x_size y_size z_size vmin vmax = Except.ok (s, w) →
        s.array.dtype = DType.float32 ∧ s.array.shape.length = 3
        ∧ s.array.shape = array.shape ∧ s.array.data = array.data)
    ∧ (∀ s newArray g s' g', setArray s newArray g = Except.ok (s', g') →
        s'.array.dtype = s.array.dtype ∧ s'.array.shape = s.array.shape
        ∧ s'.array.data = newArray.data) := by
  constructor
  · intro baseModel array offset x_size y_size z_size vmin vmax s w h
    by_cases h3 : array.shape.length = 3
    · simp [init, NDArray.toFloat32, h3] at h
      obtain ⟨hs, -⟩ := h
      subst hs
      exact ⟨rfl, h3, rfl, rfl⟩
    · simp [init, NDArray.toFloat32, h3] at h
  · intro s newArray g s' g' h
    by_cases hsh : newArray.shape = s.array.shape
    · by_cases hi : s.initialized
      · simp [setArray, NDArray.astype, hsh, hi] at h
        have hs : s' = (setTexture _ _ _).1 := (congrArg Prod.fst h).symm
        rw [hs, (setTexture_fields _ _ _).1]
        exact ⟨rfl, rfl, rfl⟩
      · simp [setArray, NDArray.astype, hsh, hi] at h
        obtain ⟨hs, -⟩ := h
        subst hs
        exact ⟨rfl, rfl, rfl⟩
    · simp [setArray, NDArray.astype, hsh] at h

/-- C10 witness: a 1×1×1 non-float32 input is stored as float32 with its
shape and data intact. -/
theorem c10_witness :
    c10State.array.dtype = DType.float32 ∧ c10State.array.shape.length = 3
    ∧ c10State.array.shape = c10Array.shape ∧ c10State.array.data = c10Array.data :=
  c10_dtype_shape_invariant.1 [] c10Array (0, 0, 0) none none none none none
    c10State [] rfl

/-- C1: the code computes each vertex position as ((u,v,w) − ½ + offset)
scaled componentwise by the extents — it scales the user offset by the
extents too — contradicting the documented placement
position = (c − ½)·size + offset (the constructor's own docstring calls
`offset` the "location of the center of the box").  For base-model point
(½,½,½) (the box center), offset (1,0,0) and field shape 4×4×4 with default
extents, the code places the vertex at x = 4 while the documented formula
gives x = 1. -/
theorem c1_offset_scaled_by_extents :
    (init [((1 : ℚ)/2, 1/2, 1/2)] c1Array (1, 0, 0) none none none none none).map
        (fun p => (p.1.x_size, p.1.triangles)) =
      Except.ok (4, [(4, 0, 0, 1/2, 1/2, 1/2)])
    ∧ ((((1 : ℚ)/2 - 1/2) * 4 + 1 = 1) ∧ (1 : ℚ) ≠ 4) := by
  refine ⟨?_, by norm_num, by norm_num⟩
  simp [init, c1Array, NDArray.toFloat32, maxDim, triangleRow, Except.map]

/-- C2 counterexample: on a fresh instance over a 2×3×4 field, the texture
setup issues no wrap call at all for the R axis, and the upload is sized
(width, height, depth) = (3, 2, 4) — shape[1], shape[0], shape[2] — not
(2, 3, 4) as the claim states. -/
theorem c2_counterexample :
    ((setTexture c2State c2State.array ⟨1, []⟩).2.log.filter
        (fun c => match c with
          | GLCmd.texWrapClampToEdge WrapAxis.r => true
          | _ => false) = [])
    ∧ ((setTexture c2State c2State.array ⟨1, []⟩).2.log.filter
        (fun c => match c with
          | GLCmd.texImage3D 3 2 4 _ => true
          | _ => false)).length = 1
    ∧ ((setTexture c2State c2State.array ⟨1, []⟩).2.log.filter
        (fun c => match c with
          | GLCmd.texImage3D 2 3 4 _ => true
          | _ => false)).length = 0 :=
  ⟨rfl, rfl, rfl⟩

/-- C2 amended: when the texture is allocated and uploaded, clamp-to-edge
wrapping is configured on the S and T axes only (the R axis is never
configured), filtering is nearest in both directions, and the upload is
sized (width, height, depth) = (shape[1], shape[0], shape[2]). -/
theorem c2_texture_configuration (s : CrossSection) (array : NDArray)
    (g : GLState) (h : s.tex = -1) :
    (setTexture s array g).2.log =
      g.log ++ [GLCmd.genTextures g.nextId,
        GLCmd.bindTexture3D g.nextId,
        GLCmd.texWrapClampToEdge WrapAxis.s,
        GLCmd.texWrapClampToEdge WrapAxis.t,
        GLCmd.texFilterNearest FilterDir.magFilter,
        GLCmd.texFilterNearest FilterDir.minFilter,
        GLCmd.bindTexture3D g.nextId,
        GLCmd.texImage3D (array.shape.getD 1 0) (array.shape.getD 0 0)
          (array.shape.getD 2 0) (setTextureData s array)] := by
  simp [setTexture, createTexture, h, GLState.genTextures, GLState.emit,
    setTextureData]

/-- C2 witness: the amended configuration, evaluated on the fresh 2×3×4
instance. -/
theorem c2_witness :
    (setTexture c2State c2State.array ⟨1, []⟩).2.log =
      ([] : List GLCmd) ++ [GLCmd.genTextures 1,
        GLCmd.bindTexture3D 1,
        GLCmd.texWrapClampToEdge WrapAxis.s,
        GLCmd.texWrapClampToEdge WrapAxis.t,
        GLCmd.texFilterNearest FilterDir.magFilter,
        GLCmd.texFilterNearest FilterDir.minFilter,
        GLCmd.bindTexture3D 1,
        GLCmd.texImage3D (c2State.array.shape.getD 1 0) (c2State.array.shape.getD 0 0)
          (c2State.array.shape.getD 2 0) (setTextureData c2State c2State.array)] :=
  c2_texture_configuration c2State c2State.array ⟨1, []⟩ rfl

/-- C4: assigning a replacement array succeeds exactly when its shape
matches the stored field's shape, and on a mismatch it raises the mismatch
error carrying both shapes.  The setter is embedded functionally, so the
error path returns no new state at all: the caller's instance — in
particular its stored field — is exactly what it was before the failed
assignment. -/
theorem c4_array_setter (s : CrossSection) (newArray : NDArray) (g : GLState) :
    (newArray.shape = s.array.shape ↔ ∃ p, setArray s newArray g = Except.ok p)
    ∧ (newArray.shape ≠ s.array.shape →
        setArray s newArray g =
          Except.error (PyErr.mismatchError s.array.shape newArray.shape)) := by
  by_cases hsh : newArray.shape = s.array.shape
  · refine ⟨⟨fun _ => ?_, fun _ => hsh⟩, fun hne => absurd hsh hne⟩
    by_cases hi : s.initialized
    · simp [setArray, NDArray.astype, hsh, hi]
    · simp [setArray, NDArray.astype, hsh, hi]
  · refine ⟨⟨fun hc => absurd hc hsh, ?_⟩, fun _ => ?_⟩
    · rintro ⟨p, hp⟩
      simp [setArray, NDArray.astype, hsh] at hp
    · simp [setArray, NDArray.astype, hsh]

/-- C4 witness: replacing the 1×1×1 field of a concrete instance by a 2D
9×9 array is rejected with the mismatch error. -/
theorem c4_witness :
    ((⟨[9, 9], DType.other, []⟩ : NDArray).shape = sampleInitState.array.shape ↔
      ∃ p, setArray sampleInitState ⟨[9, 9], DType.other, []⟩ ⟨10, []⟩ = Except.ok p)
    ∧ ((⟨[9, 9], DType.other, []⟩ : NDArray).shape ≠ sampleInitState.array.shape →
        setArray sampleInitState ⟨[9, 9], DType.other, []⟩ ⟨10, []⟩ =
          Except.error (PyErr.mismatchError sampleInitState.array.shape [9, 9])) :=
  c4_array_setter sampleInitState ⟨[9, 9], DType.other, []⟩ ⟨10, []⟩

/-- C5: after every successful same-shape replacement the mesh, buffer
handles, extents, offset and vmin/vmax window are unchanged and the new
data is stored; when the instance is not initialized no GL call is made,
and when it is initialized (texture allocated) the only GL activity is a
re-upload normalized by the CURRENT vmin/vmax window. -/
theorem c5_same_shape_replacement (s : CrossSection) (newArray : NDArray)
    (g : GLState) (s' : CrossSection) (g' : GLState)
    (h : setArray s newArray g = Except.ok (s', g')) :
    s'.triangles = s.triangles ∧ s'.vao = s.vao ∧ s'.vbo = s.vbo
    ∧ s'.x_size = s.x_size ∧ s'.y_size = s.y_size ∧ s'.z_size = s.z_size
    ∧ s'.offset = s.offset ∧ s'.vmin = s.vmin ∧ s'.vmax = s.vmax
    ∧ s'.array.data = newArray.data
    ∧ (s.initialized = false → g' = g)
    ∧ (s.initialized = true → ¬ s.tex = -1 →
        g'.log = g.log ++ [GLCmd.bindTexture3D s.tex,
          GLCmd.texImage3D (newArray.shape.getD 1 0) (newArray.shape.getD 0 0)
            (newArray.shape.getD 2 0)
            (newArray.data.map (fun x => (x - s.vmin) / (s.vmax - s.vmin)))]) := by
  by_cases hsh : newArray.shape = s.array.shape
  · by_cases hi : s.initialized
    · simp [setArray, NDArray.astype, hsh, hi] at h
      have hs : s' = (setTexture _ _ _).1 := (congrArg Prod.fst h).symm
      have hg : g' = (setTexture _ _ _).2 := (congrArg Prod.snd h).symm
      subst hs
      subst hg
      refine ⟨(setTexture_fields _ _ _).2.1, (setTexture_fields _ _ _).2.2.1,
        (setTexture_fields _ _ _).2.2.2.1, (setTexture_fields _ _ _).2.2.2.2.1,
        (setTexture_fields _ _ _).2.2.2.2.2.1, (setTexture_fields _ _ _).2.2.2.2.2.2.1,
        (setTexture_fields _ _ _).2.2.2.2.2.2.2.1,
        (setTexture_fields _ _ _).2.2.2.2.2.2.2.2.1,
        (setTexture_fields _ _ _).2.2.2.2.2.2.2.2.2.1,
        ?_, ?_, ?_⟩
      · rw [(setTexture_fields _ _ _).1]
      · intro hf
        rw [hf] at hi
        cases hi
      · intro _ htex
        rw [setTexture_log_of_ne]
        · simp [GLState.emit, setTextureData, hsh]
        · exact htex
    · simp [setArray, NDArray.astype, hsh, hi] at h
      obtain ⟨hs, hg⟩ := h
      subst hs
      subst hg
      exact ⟨rfl, rfl, rfl, rfl, rfl, rfl, rfl, rfl, rfl, rfl, fun _ => rfl,
        fun hT => absurd hT hi⟩
  · simp [setArray, NDArray.astype, hsh] at h

/-- C5 witness: replacing the field [5] of a concrete initialized instance
(window [0,1], texture handle 3) by [7] keeps every attribute and re-uploads
[7] normalized by the old window. -/
theorem c5_witness :
    c5NewState.triangles = sampleInitState.triangles
    ∧ c5NewState.vao = sampleInitState.vao ∧ c5NewState.vbo = sampleInitState.vbo
    ∧ c5NewState.x_size = sampleInitState.x_size
    ∧ c5NewState.y_size = sampleInitState.y_size
    ∧ c5NewState.z_size = sampleInitState.z_size
    ∧ c5NewState.offset = sampleInitState.offset
    ∧ c5NewState.vmin = sampleInitState.vmin ∧ c5NewState.vmax = sampleInitState.vmax
    ∧ c5NewState.array.data = [7]
    ∧ (sampleInitState.initialized = false →
        (⟨10, [GLCmd.bindTexture3D 3, GLCmd.texImage3D 1 1 1 [7]]⟩ : GLState) =
          (⟨10, []⟩ : GLState))
    ∧ (sampleInitState.initialized = true → ¬ sampleInitState.tex = -1 →
        (⟨10, [GLCmd.bindTexture3D 3, GLCmd.texImage3D 1 1 1 [7]]⟩ : GLState).log =
          (⟨10, []⟩ : GLState).log ++ [GLCmd.bindTexture3D sampleInitState.tex,
            GLCmd.texImage3D (([1, 1, 1] : List Nat).getD 1 0)
              (([1, 1, 1] : List Nat).getD 0 0) (([1, 1, 1] : List Nat).getD 2 0)
              (([7] : List ℚ).map
                (fun x => (x - sampleInitState.vmin) /
                  (sampleInitState.vmax - sampleInitState.vmin)))]) :=
  c5_same_shape_replacement sampleInitState ⟨[1, 1, 1], DType.other, [7]⟩ ⟨10, []⟩
    c5NewState ⟨10, [GLCmd.bindTexture3D 3, GLCmd.texImage3D 1 1 1 [7]]⟩
    (by norm_num [setArray, setTexture, NDArray.astype, setTextureData,
      GLState.emit, sampleInitState, c5NewState])

/-- C8: with the texture allocated, an upload emits exactly the linear remap
x ↦ (x − vmin)/(vmax − vmin) of every field value, with no pre-clamping; and
for a field spanning exactly [10, 20] with vmin = 10, vmax = 20 the
normalized values span exactly [0, 1]. -/
theorem c8_linear_remap (s : CrossSection) (array : NDArray) (g : GLState)
    (ht : ¬ s.tex = -1) :
    (setTexture s array g).2.log = g.log ++ [GLCmd.bindTexture3D s.tex,
        GLCmd.texImage3D (array.shape.getD 1 0) (array.shape.getD 0 0)
          (array.shape.getD 2 0)
          (array.data.map (fun x => (x - s.vmin) / (s.vmax - s.vmin)))]
    ∧ (s.vmin = 10 → s.vmax = 20 → (∀ x ∈ array.data, 10 ≤ x ∧ x ≤ 20) →
        (10 : ℚ) ∈ array.data → (20 : ℚ) ∈ array.data →
        (∀ y ∈ setTextureData s array, 0 ≤ y ∧ y ≤ 1)
        ∧ (0 : ℚ) ∈ setTextureData s array ∧ (1 : ℚ) ∈ setTextureData s array) := by
  constructor
  · rw [setTexture_log_of_ne _ _ _ ht]
    simp [GLState.emit, setTextureData]
  · intro hmin hmax hbounds h10 h20
    refine ⟨?_, ?_, ?_⟩
    · intro y hy
      simp only [setTextureData, List.mem_map] at hy
      obtain ⟨x, hx, rfl⟩ := hy
      obtain ⟨hx1, hx2⟩ := hbounds x hx
      rw [hmin, hmax]
      constructor
      · apply div_nonneg
        · linarith
        · norm_num
      · rw [div_le_one (by norm_num)]
        linarith
    · simp only [setTextureData, List.mem_map]
      exact ⟨10, h10, by rw [hmin, hmax]; norm_num⟩
    · simp only [setTextureData, List.mem_map]
      exact ⟨20, h20, by rw [hmin, hmax]; norm_num⟩

/-- C8 witness: instance with window [10, 20] and texture handle 3,
field values [10, 15, 20]. -/
theorem c8_witness :
    (setTexture c8State c8Array ⟨10, []⟩).2.log =
      (⟨10, []⟩ : GLState).log ++ [GLCmd.bindTexture3D c8State.tex,
        GLCmd.texImage3D (c8Array.shape.getD 1 0) (c8Array.shape.getD 0 0)
          (c8Array.shape.getD 2 0)
          (c8Array.data.map (fun x => (x - c8State.vmin) / (c8State.vmax - c8State.vmin)))]
    ∧ (c8State.vmin = 10 → c8State.vmax = 20 → (∀ x ∈ c8Array.data, 10 ≤ x ∧ x ≤ 20) →
        (10 : ℚ) ∈ c8Array.data → (20 : ℚ) ∈ c8Array.data →
        (∀ y ∈ setTextureData c8State c8Array, 0 ≤ y ∧ y ≤ 1)
        ∧ (0 : ℚ) ∈ setTextureData c8State c8Array
        ∧ (1 : ℚ) ∈ setTextureData c8State c8Array) :=
  c8_linear_remap c8State c8Array ⟨10, []⟩ (by decide)

end Plot3D
